import Mathlib

/-!
Verification development for the error-classification layer of a Kubernetes
client library (`kube-client/src/error.rs`).

The Rust `enum Error` and `enum DiscoveryError`, their `thiserror`-derived
`Display` strings and `source()` chains are embedded shallowly: collaborator
failure values (hyper, tower, serde_json, openssl, ...) are represented by
their rendered `Display` message, and `http::StatusCode` by its numeric code.
Components whose code lives outside the error module itself (the API-level
body decoder, discovery's group/version validation, and the websocket
upgrade-response validator) are modelled from the specification, as marked on
each such definition.
-/

namespace Kube

/-- `firstOfB n h` holds when the character list `n` is an initial run of `h`. -/
def firstOfB : List Char → List Char → Bool
  | [], _ => true
  | _ :: _, [] => false
  | a :: as, b :: bs => a == b && firstOfB as bs

/-- `insideB n h` holds when the character list `n` occurs contiguously inside `h`. -/
def insideB (n : List Char) : List Char → Bool
  | [] => firstOfB n []
  | c :: t => firstOfB n (c :: t) || insideB n t

/-- `containsStr hay n` holds when the string `n` occurs as a substring of `hay`. -/
def containsStr (hay n : String) : Bool := insideB n.data hay.data

/-- Modelled from the spec: `kube_core::ErrorResponse`, re-exported by the
error module but defined outside the sources at hand — the parsed form of a
remote rejection carrying a status string, a human message, a
machine-readable reason and a numeric code. -/
structure ErrorResponse where
  status : String
  message : String
  reason : String
  code : Nat
  deriving DecidableEq, Repr

/-- Modelled from the spec: the `Display` rendering of an `ErrorResponse`,
pairing the machine-readable reason with the human message. -/
def ErrorResponse.display (e : ErrorResponse) : String :=
  e.reason ++ ": " ++ e.message

/-- Modelled from the spec: the derived `Debug` rendering of an
`ErrorResponse`, showing every field. -/
def ErrorResponse.debug (e : ErrorResponse) : String :=
  "ErrorResponse \x7b status: \"" ++ e.status ++ "\", message: \"" ++ e.message ++
    "\", reason: \"" ++ e.reason ++ "\", code: " ++ toString e.code ++ " \x7d"

/-- `enum DiscoveryError` from `error.rs` (lines 112-127). -/
inductive DiscoveryError where
  | InvalidGroupVersion (s : String)
  | MissingKind (s : String)
  | MissingApiGroup (s : String)
  | MissingResource (s : String)
  | EmptyApiGroup (s : String)
  deriving DecidableEq, Repr

/-- The `thiserror` `Display` strings of `DiscoveryError`, transcribed from
the attributes in `error.rs` lines 117-126. -/
def DiscoveryError.display : DiscoveryError → String
  | .InvalidGroupVersion s => "Invalid GroupVersion: " ++ s
  | .MissingKind s => "Missing Kind: " ++ s
  | .MissingApiGroup s => "Missing Api Group: " ++ s
  | .MissingResource s => "Missing MissingResource: " ++ s
  | .EmptyApiGroup s => "Empty Api Group: " ++ s

/-- `enum Error` from `error.rs` (lines 8-110), with all feature-gated
variants included.  Each wrapped collaborator failure value is represented by
its rendered `Display` message; `http::StatusCode` by its numeric code. -/
inductive Error where
  | Api (e : ErrorResponse)
  | HyperError (cause : String)
  | Service (cause : String)
  | FromUtf8 (cause : String)
  | LinesCodecMaxLineLengthExceeded
  | ReadEvents (cause : String)
  | HttpError (cause : String)
  | SerdeError (cause : String)
  | BuildRequest (cause : String)
  | InferConfig (cause : String)
  | Discovery (e : DiscoveryError)
  | SslError (s : String)
  | OpensslError (cause : String)
  | ProtocolSwitch (status : Nat)
  | MissingUpgradeWebSocketHeader
  | MissingConnectionUpgradeHeader
  | SecWebSocketAcceptKeyMismatch
  | SecWebSocketProtocolMismatch
  | Auth (cause : String)
  deriving DecidableEq, Repr

/-- The `thiserror` `#[error("...")]` `Display` strings of `Error`,
transcribed from the attributes in `error.rs`.  Note that the `SerdeError`
attribute on line 47 is the fixed string `"Error deserializing response"`
with no `{0}` interpolation. -/
def Error.display : Error → String
  | .Api e => "ApiError: " ++ e.display ++ " (" ++ e.debug ++ ")"
  | .HyperError c => "HyperError: " ++ c
  | .Service c => "ServiceError: " ++ c
  | .FromUtf8 c => "UTF-8 Error: " ++ c
  | .LinesCodecMaxLineLengthExceeded => "Error finding newline character"
  | .ReadEvents c => "Error reading events stream: " ++ c
  | .HttpError c => "HttpError: " ++ c
  | .SerdeError _ => "Error deserializing response"
  | .BuildRequest c => "Failed to build request: " ++ c
  | .InferConfig c => "Failed to infer configuration: " ++ c
  | .Discovery e => "Error from discovery: " ++ e.display
  | .SslError s => "SslError: " ++ s
  | .OpensslError c => "OpensslError: " ++ c
  | .ProtocolSwitch status => "Failed to switch protocol. Status code: " ++ toString status
  | .MissingUpgradeWebSocketHeader => "Upgrade header was not set to websocket"
  | .MissingConnectionUpgradeHeader => "Connection header was not set to Upgrade"
  | .SecWebSocketAcceptKeyMismatch => "Sec-WebSocket-Accept key mismatched"
  | .SecWebSocketProtocolMismatch => "Sec-WebSocket-Protocol mismatched"
  | .Auth c => "auth error: " ++ c

/-- The wrapped cause exposed by `std::error::Error::source()`: either the
structured `ErrorResponse`, a nested `DiscoveryError`, or an opaque
collaborator failure represented by its rendered message. -/
inductive ErrSource where
  | response (e : ErrorResponse)
  | discovery (d : DiscoveryError)
  | msg (s : String)
  deriving DecidableEq, Repr

/-- The `Display` rendering of a wrapped cause. -/
def ErrSource.display : ErrSource → String
  | .response e => e.display
  | .discovery d => d.display
  | .msg s => s

/-- The `source()` chain of `Error`, transcribed from the `#[source]`
attributes in `error.rs`: exactly the variants marked `#[source]` expose
their payload as a cause; `LinesCodecMaxLineLengthExceeded`, `SslError`,
`ProtocolSwitch` and the four websocket-header variants expose none. -/
def Error.source : Error → Option ErrSource
  | .Api e => some (.response e)
  | .HyperError c => some (.msg c)
  | .Service c => some (.msg c)
  | .FromUtf8 c => some (.msg c)
  | .LinesCodecMaxLineLengthExceeded => none
  | .ReadEvents c => some (.msg c)
  | .HttpError c => some (.msg c)
  | .SerdeError c => some (.msg c)
  | .BuildRequest c => some (.msg c)
  | .InferConfig c => some (.msg c)
  | .Discovery d => some (.discovery d)
  | .SslError _ => none
  | .OpensslError c => some (.msg c)
  | .ProtocolSwitch _ => none
  | .MissingUpgradeWebSocketHeader => none
  | .MissingConnectionUpgradeHeader => none
  | .SecWebSocketAcceptKeyMismatch => none
  | .SecWebSocketProtocolMismatch => none
  | .Auth c => some (.msg c)

/-- The name of the top-level constructor of an `Error` value: two values
share a tag exactly when they are built from the same top-level variant. -/
def Error.tag : Error → String
  | .Api _ => "Api"
  | .HyperError _ => "HyperError"
  | .Service _ => "Service"
  | .FromUtf8 _ => "FromUtf8"
  | .LinesCodecMaxLineLengthExceeded => "LinesCodecMaxLineLengthExceeded"
  | .ReadEvents _ => "ReadEvents"
  | .HttpError _ => "HttpError"
  | .SerdeError _ => "SerdeError"
  | .BuildRequest _ => "BuildRequest"
  | .InferConfig _ => "InferConfig"
  | .Discovery _ => "Discovery"
  | .SslError _ => "SslError"
  | .OpensslError _ => "OpensslError"
  | .ProtocolSwitch _ => "ProtocolSwitch"
  | .MissingUpgradeWebSocketHeader => "MissingUpgradeWebSocketHeader"
  | .MissingConnectionUpgradeHeader => "MissingConnectionUpgradeHeader"
  | .SecWebSocketAcceptKeyMismatch => "SecWebSocketAcceptKeyMismatch"
  | .SecWebSocketProtocolMismatch => "SecWebSocketProtocolMismatch"
  | .Auth _ => "Auth"

/-- Modelled from the spec: a response body as seen by the API-level error
decoder, after the external JSON engine has tokenized it — either a JSON
object with string fields and an optional numeric code field, or text that
is not a JSON object at all. -/
inductive Body where
  | jsonObject (fields : List (String × String)) (code : Option Nat)
  | notJson (raw : String)
  deriving DecidableEq, Repr

/-- Looks up a string field of a tokenized JSON object by key. -/
def findField (k : String) : List (String × String) → Option String
  | [] => none
  | (k2, v) :: rest => if k2 = k then some v else findField k rest

/-- Modelled from the spec: parsing a body into the structured-rejection
shape — the `status` field is required, `message` and `reason` default to
the empty string, and the numeric `code` defaults to zero.  A body that is
not a JSON object, or lacks `status`, does not parse. -/
def parseErrorResponse : Body → Option ErrorResponse
  | .jsonObject fs code =>
    match findField "status" fs with
    | some st =>
      some ⟨st, (findField "message" fs).getD "", (findField "reason" fs).getD "",
        code.getD 0⟩
    | none => none
  | .notJson _ => none

/-- Modelled from the spec: the rendered message of the external JSON
engine's failure value when a body does not match the expected shape. -/
def serdeMsgOf : Body → String
  | .jsonObject _ _ => "missing field status"
  | .notJson raw => "invalid JSON: " ++ raw

/-- Modelled from the spec: the API-level error decoder — a body that parses
into the structured-rejection shape becomes `Error.Api`; any other body
becomes `Error.SerdeError` wrapping the JSON engine's failure. -/
def decode_error (b : Body) : Error :=
  match parseErrorResponse b with
  | some er => Error.Api er
  | none => Error.SerdeError (serdeMsgOf b)

/-- Splits a character list on the slash character. -/
def splitSlash (cs : List Char) : List (List Char) :=
  match cs with
  | [] => [[]]
  | c :: rest =>
    let r := splitSlash rest
    if c = '/' then [] :: r
    else
      match r with
      | [] => [[c]]
      | h :: t => (c :: h) :: t

/-- Modelled from the spec: `validate_group_version` splits a
`group/version` string — a bare version has the empty group, a
`group/version` pair keeps both components, and anything else fails with
`DiscoveryError.InvalidGroupVersion` carrying the original string. -/
def validate_group_version (s : String) : Except DiscoveryError (String × String) :=
  match (splitSlash s.data).map (fun cs => String.mk cs) with
  | [v] => .ok ("", v)
  | [g, v] => .ok (g, v)
  | _ => .error (.InvalidGroupVersion s)

/-- The HTTP switching-protocols status code. -/
def switchingProtocols : Nat := 101

/-- Lower-cases a string's characters, for case-insensitive header checks. -/
def lowerStr (s : String) : List Char := s.data.map Char.toLower

/-- A header that is present and case-insensitively equal to a token. -/
def headerIsCI (h : Option String) (tok : String) : Bool :=
  match h with
  | some v => lowerStr v == lowerStr tok
  | none => false

/-- A header that is present and case-insensitively contains a token. -/
def headerContainsCI (h : Option String) (tok : String) : Bool :=
  match h with
  | some v => insideB (lowerStr tok) (lowerStr v)
  | none => false

/-- Modelled from the spec: the subprotocol check — vacuously true when the
client offered no subprotocols, otherwise the server must have selected one
of the offered ones. -/
def subprotocolOk (offered : List String) (h : Option String) : Bool :=
  offered.isEmpty ||
    match h with
    | some p => offered.contains p
    | none => false

/-- Modelled from the spec: an upgrade HTTP response as seen by the
handshake validator — its status code and the four relevant headers. -/
structure UpgradeResponse where
  status : Nat
  upgradeHeader : Option String
  connectionHeader : Option String
  acceptHeader : Option String
  protocolHeader : Option String
  deriving DecidableEq, Repr

/-- Modelled from the spec: the upgrade-handshake validator — five checks
run in the fixed order status, `Upgrade` header, `Connection` header,
accept-key, subprotocol, short-circuiting on the first failure.  The
expected accept-key (computed from the request nonce by the external
handshake algorithm) is passed in as `expectedAccept`. -/
def verify_upgrade_response (r : UpgradeResponse) (expectedAccept : String)
    (offered : List String) : Option Error :=
  if r.status ≠ switchingProtocols then some (Error.ProtocolSwitch r.status)
  else if headerIsCI r.upgradeHeader "websocket" = false then
    some Error.MissingUpgradeWebSocketHeader
  else if headerContainsCI r.connectionHeader "upgrade" = false then
    some Error.MissingConnectionUpgradeHeader
  else if r.acceptHeader ≠ some expectedAccept then
    some Error.SecWebSocketAcceptKeyMismatch
  else if subprotocolOk offered r.protocolHeader = false then
    some Error.SecWebSocketProtocolMismatch
  else none

theorem firstOfB_refl (n : List Char) : firstOfB n n = true := by
  induction n with
  | nil => rfl
  | cons a as ih => simp [firstOfB, ih]

theorem firstOfB_append_ext (n : List Char) :
    ∀ h t : List Char, firstOfB n h = true → firstOfB n (h ++ t) = true := by
  induction n with
  | nil => intro h t _; simp [firstOfB]
  | cons a as ih =>
    intro h t hf
    cases h with
    | nil => simp [firstOfB] at hf
    | cons b bs =>
      simp [firstOfB, Bool.and_eq_true] at hf ⊢
      exact ⟨hf.1, ih bs t hf.2⟩

theorem insideB_of_firstOfB (n h : List Char) (hf : firstOfB n h = true) :
    insideB n h = true := by
  cases h with
  | nil => simpa [insideB] using hf
  | cons c t => simp [insideB, hf]

theorem insideB_append_left (p n h : List Char) (hi : insideB n h = true) :
    insideB n (p ++ h) = true := by
  induction p with
  | nil => simpa using hi
  | cons c ps ih => simp [insideB, ih]

theorem insideB_append_right (n h t : List Char) (hi : insideB n h = true) :
    insideB n (h ++ t) = true := by
  induction h with
  | nil =>
    cases n with
    | nil =>
      cases t with
      | nil => rfl
      | cons c ts => simp [insideB, firstOfB]
    | cons a as => simp [insideB, firstOfB] at hi
  | cons c hs ih =>
    have hi2 : firstOfB n (c :: hs) = true ∨ insideB n hs = true := by
      simpa [insideB, Bool.or_eq_true] using hi
    cases hi2 with
    | inl hf =>
      simp only [List.cons_append, insideB, Bool.or_eq_true]
      exact Or.inl (by simpa using firstOfB_append_ext n (c :: hs) t hf)
    | inr hin =>
      simp only [List.cons_append, insideB, Bool.or_eq_true]
      exact Or.inr (ih hin)

theorem containsStr_right (a b : String) : containsStr (a ++ b) b = true := by
  unfold containsStr
  rw [String.data_append]
  exact insideB_append_left _ _ _ (insideB_of_firstOfB _ _ (firstOfB_refl _))

theorem containsStr_extend (a b n : String) (h : containsStr a n = true) :
    containsStr (a ++ b) n = true := by
  unfold containsStr at h ⊢
  rw [String.data_append]
  exact insideB_append_right _ _ _ h

theorem api_display_contains_both (e : ErrorResponse) :
    containsStr (Error.display (Error.Api e)) e.display = true ∧
    containsStr (Error.display (Error.Api e)) e.debug = true := by
  constructor
  · show containsStr ("ApiError: " ++ e.display ++ " (" ++ e.debug ++ ")") e.display = true
    exact containsStr_extend _ _ _ (containsStr_extend _ _ _
      (containsStr_extend _ _ _ (containsStr_right "ApiError: " e.display)))
  · show containsStr ("ApiError: " ++ e.display ++ " (" ++ e.debug ++ ")") e.debug = true
    exact containsStr_extend _ _ _
      (containsStr_right ("ApiError: " ++ e.display ++ " (") e.debug)

/-- Claim C5: `validate_group_version "v1"` succeeds with the empty group and
version `"v1"`; `validate_group_version "apps/v1"` succeeds with group
`"apps"`; `validate_group_version "a/b/c"` fails with
`DiscoveryError.InvalidGroupVersion` carrying the original string. -/
theorem validate_group_version_cases :
    validate_group_version "v1" = Except.ok ("", "v1") ∧
    validate_group_version "apps/v1" = Except.ok ("apps", "v1") ∧
    validate_group_version "a/b/c" =
      Except.error (DiscoveryError.InvalidGroupVersion "a/b/c") :=
  ⟨rfl, rfl, rfl⟩

/-- Claim C8: the `Display` string of `DiscoveryError.MissingResource s` is
`"Missing MissingResource: "` followed by `s`, with the variant name doubled,
while the other four `DiscoveryError` variants name their variant once. -/
theorem missing_resource_display_doubled (s : String) :
    DiscoveryError.display (DiscoveryError.MissingResource s) =
      "Missing MissingResource: " ++ s ∧
    DiscoveryError.display (DiscoveryError.InvalidGroupVersion s) =
      "Invalid GroupVersion: " ++ s ∧
    DiscoveryError.display (DiscoveryError.MissingKind s) = "Missing Kind: " ++ s ∧
    DiscoveryError.display (DiscoveryError.MissingApiGroup s) =
      "Missing Api Group: " ++ s ∧
    DiscoveryError.display (DiscoveryError.EmptyApiGroup s) =
      "Empty Api Group: " ++ s :=
  ⟨rfl, rfl, rfl, rfl, rfl⟩

/-- Claim C9: the `Display` string of `Error.Api e` is
`"ApiError: "` ++ `Display` of `e` ++ `" ("` ++ `Debug` of `e` ++ `")"`, so
it contains both the `Display` rendering and the `Debug` rendering of `e`. -/
theorem api_display_contains_display_and_debug (e : ErrorResponse) :
    Error.display (Error.Api e) =
      "ApiError: " ++ e.display ++ " (" ++ e.debug ++ ")" ∧
    containsStr (Error.display (Error.Api e)) e.display = true ∧
    containsStr (Error.display (Error.Api e)) e.debug = true :=
  ⟨rfl, (api_display_contains_both e).1, (api_display_contains_both e).2⟩

/-- Claim C10: `Error.SslError s` carries only the pre-formatted string `s`
(its display is `"SslError: " ++ s`) and exposes no source cause, unlike the
failure-wrapping variants such as `OpensslError`, which expose their wrapped
value as a source. -/
theorem ssl_error_has_no_source (s : String) :
    (Error.SslError s).source = none ∧
    (Error.SslError s).display = "SslError: " ++ s ∧
    (Error.OpensslError s).source = some (ErrSource.msg s) :=
  ⟨rfl, rfl, rfl⟩

/-- Claim C4: constructing any cause-wrapping `Error` variant is a total
function of the collaborator failure value, and the original value remains
reachable unchanged through `source()` on the constructed `Error`. -/
theorem error_ctor_preserves_source (c : String) (e : ErrorResponse)
    (d : DiscoveryError) :
    (Error.Api e).source = some (ErrSource.response e) ∧
    (Error.HyperError c).source = some (ErrSource.msg c) ∧
    (Error.Service c).source = some (ErrSource.msg c) ∧
    (Error.FromUtf8 c).source = some (ErrSource.msg c) ∧
    (Error.ReadEvents c).source = some (ErrSource.msg c) ∧
    (Error.HttpError c).source = some (ErrSource.msg c) ∧
    (Error.SerdeError c).source = some (ErrSource.msg c) ∧
    (Error.BuildRequest c).source = some (ErrSource.msg c) ∧
    (Error.InferConfig c).source = some (ErrSource.msg c) ∧
    (Error.Discovery d).source = some (ErrSource.discovery d) ∧
    (Error.OpensslError c).source = some (ErrSource.msg c) ∧
    (Error.Auth c).source = some (ErrSource.msg c) :=
  ⟨rfl, rfl, rfl, rfl, rfl, rfl, rfl, rfl, rfl, rfl, rfl, rfl⟩

/-- Claim C7 (counterexample): the upgrade-handshake failures are not
reachable through one nested variant of the top-level union — the handshake
failures `ProtocolSwitch 500` and `MissingUpgradeWebSocketHeader` are built
from distinct top-level constructors, and neither is a constructor named
`Upgrade`; by contrast the discovery failures do share the single top-level
constructor `Discovery`. -/
theorem upgrade_not_nested_variant_cex :
    Error.tag (Error.ProtocolSwitch 500) ≠ Error.tag Error.MissingUpgradeWebSocketHeader ∧
    Error.tag (Error.ProtocolSwitch 500) ≠ "Upgrade" ∧
    Error.tag Error.MissingUpgradeWebSocketHeader ≠ "Upgrade" ∧
    Error.tag (Error.Discovery (DiscoveryError.MissingKind "Pod")) =
      Error.tag (Error.Discovery (DiscoveryError.InvalidGroupVersion "a/b/c")) := by
  refine ⟨?_, ?_, ?_, rfl⟩ <;> decide

/-- Claim C7 (amended): the top-level `Error` union exposes the five
upgrade-handshake failures as five separate top-level variants
(`ProtocolSwitch`, `MissingUpgradeWebSocketHeader`,
`MissingConnectionUpgradeHeader`, `SecWebSocketAcceptKeyMismatch`,
`SecWebSocketProtocolMismatch`), not nested under a single
`Upgrade(UpgradeError)` variant; only discovery failures are nested, under
the single `Discovery` variant. -/
theorem upgrade_failures_top_level (s : Nat) (d : DiscoveryError) :
    Error.tag (Error.ProtocolSwitch s) = "ProtocolSwitch" ∧
    Error.tag Error.MissingUpgradeWebSocketHeader = "MissingUpgradeWebSocketHeader" ∧
    Error.tag Error.MissingConnectionUpgradeHeader = "MissingConnectionUpgradeHeader" ∧
    Error.tag Error.SecWebSocketAcceptKeyMismatch = "SecWebSocketAcceptKeyMismatch" ∧
    Error.tag Error.SecWebSocketProtocolMismatch = "SecWebSocketProtocolMismatch" ∧
    Error.tag (Error.Discovery d) = "Discovery" :=
  ⟨rfl, rfl, rfl, rfl, rfl, rfl⟩

/-- Claim C1 (counterexample): the `SerdeError` variant wraps a nested cause
(it is exposed through `source()`), yet its `Display` string — the fixed
text `"Error deserializing response"` from `error.rs` line 47 — does not
contain the cause's own `Display` string `"boom"`. -/
theorem serde_display_omits_cause_cex :
    (Error.SerdeError "boom").source = some (ErrSource.msg "boom") ∧
    containsStr (Error.SerdeError "boom").display
      (ErrSource.display (ErrSource.msg "boom")) = false :=
  ⟨rfl, rfl⟩

/-- Claim C1 (amended): for every top-level `Error` variant that wraps a
nested cause except `SerdeError`, the `Display`-formatted string of the
`Error` value contains the `Display`-formatted string of that nested cause
as a substring; `SerdeError` formats as the fixed string
`"Error deserializing response"`, which omits the cause's message (the cause
stays reachable only through `source()`). -/
theorem display_contains_source_except_serde (e : Error) (s : ErrSource)
    (hsrc : e.source = some s) (hns : ∀ c, e ≠ Error.SerdeError c) :
    containsStr e.display s.display = true := by
  cases e with
  | Api er =>
    simp only [Error.source, Option.some.injEq] at hsrc
    subst hsrc
    exact (api_display_contains_both er).1
  | HyperError c =>
    simp only [Error.source, Option.some.injEq] at hsrc
    subst hsrc
    exact containsStr_right "HyperError: " c
  | Service c =>
    simp only [Error.source, Option.some.injEq] at hsrc
    subst hsrc
    exact containsStr_right "ServiceError: " c
  | FromUtf8 c =>
    simp only [Error.source, Option.some.injEq] at hsrc
    subst hsrc
    exact containsStr_right "UTF-8 Error: " c
  | LinesCodecMaxLineLengthExceeded => simp [Error.source] at hsrc
  | ReadEvents c =>
    simp only [Error.source, Option.some.injEq] at hsrc
    subst hsrc
    exact containsStr_right "Error reading events stream: " c
  | HttpError c =>
    simp only [Error.source, Option.some.injEq] at hsrc
    subst hsrc
    exact containsStr_right "HttpError: " c
  | SerdeError c => exact absurd rfl (hns c)
  | BuildRequest c =>
    simp only [Error.source, Option.some.injEq] at hsrc
    subst hsrc
    exact containsStr_right "Failed to build request: " c
  | InferConfig c =>
    simp only [Error.source, Option.some.injEq] at hsrc
    subst hsrc
    exact containsStr_right "Failed to infer configuration: " c
  | Discovery d =>
    simp only [Error.source, Option.some.injEq] at hsrc
    subst hsrc
    exact containsStr_right "Error from discovery: " d.display
  | SslError str => simp [Error.source] at hsrc
  | OpensslError c =>
    simp only [Error.source, Option.some.injEq] at hsrc
    subst hsrc
    exact containsStr_right "OpensslError: " c
  | ProtocolSwitch st => simp [Error.source] at hsrc
  | MissingUpgradeWebSocketHeader => simp [Error.source] at hsrc
  | MissingConnectionUpgradeHeader => simp [Error.source] at hsrc
  | SecWebSocketAcceptKeyMismatch => simp [Error.source] at hsrc
  | SecWebSocketProtocolMismatch => simp [Error.source] at hsrc
  | Auth c =>
    simp only [Error.source, Option.some.injEq] at hsrc
    subst hsrc
    exact containsStr_right "auth error: " c

/-- Witness for the amended claim C1, at the `HyperError` variant wrapping
the cause message `"socket closed"`. -/
theorem display_contains_source_except_serde_witness :
    containsStr (Error.HyperError "socket closed").display
      (ErrSource.display (ErrSource.msg "socket closed")) = true :=
  display_contains_source_except_serde (Error.HyperError "socket closed")
    (ErrSource.msg "socket closed") rfl (fun _ h => Error.noConfusion h)

/-- Claim C2: a body that is a JSON object of the structured-rejection shape
(it has the required `status` field) with numeric code 410 decodes to
`Error.Api` carrying code 410, never to `Error.SerdeError` and never to any
variant other than `Api`. -/
theorem decode_status410_is_api (fs : List (String × String)) (st : String)
    (h : findField "status" fs = some st) :
    decode_error (Body.jsonObject fs (some 410)) =
      Error.Api ⟨st, (findField "message" fs).getD "",
        (findField "reason" fs).getD "", 410⟩ ∧
    ∀ c, decode_error (Body.jsonObject fs (some 410)) ≠ Error.SerdeError c := by
  have hp : parseErrorResponse (Body.jsonObject fs (some 410)) =
      some ⟨st, (findField "message" fs).getD "",
        (findField "reason" fs).getD "", 410⟩ := by
    simp [parseErrorResponse, h]
  exact ⟨by simp [decode_error, hp], fun c => by simp [decode_error, hp]⟩

/-- Witness for claim C2, at the typical stale-cursor rejection body. -/
theorem decode_status410_is_api_witness :
    decode_error (Body.jsonObject [("status", "Failure"), ("reason", "Expired")]
        (some 410)) =
      Error.Api ⟨"Failure", "", "Expired", 410⟩ :=
  (decode_status410_is_api [("status", "Failure"), ("reason", "Expired")]
    "Failure" rfl).1

/-- Claim C6: a body that does not parse into the structured-rejection shape
decodes to `Error.SerdeError` wrapping the JSON engine's failure, and never
to `Error.Api` of any value (in particular never a default-valued one);
decoding is a total function, so it cannot panic. -/
theorem decode_malformed_is_serde (b : Body)
    (h : parseErrorResponse b = none) :
    decode_error b = Error.SerdeError (serdeMsgOf b) ∧
    ∀ er, decode_error b ≠ Error.Api er := by
  exact ⟨by simp [decode_error, h], fun er => by simp [decode_error, h]⟩

/-- Witness for claim C6, at a body that is not JSON at all. -/
theorem decode_malformed_is_serde_witness :
    decode_error (Body.notJson "not json") =
      Error.SerdeError (serdeMsgOf (Body.notJson "not json")) :=
  (decode_malformed_is_serde (Body.notJson "not json") rfl).1

/-- Claim C3: the upgrade-handshake validator checks the status code first —
with a wrong status and a missing `Upgrade` header it reports
`ProtocolSwitch` with the actual status, not the missing-header variant —
and more generally the five checks run in the fixed order status, `Upgrade`
header, `Connection` header, accept-key, subprotocol, the first failing
check determining the reported variant (and all passing yielding success). -/
theorem upgrade_checks_ordered (r : UpgradeResponse) (k : String)
    (ps : List String) :
    (r.status ≠ switchingProtocols → r.upgradeHeader = none →
      verify_upgrade_response r k ps = some (Error.ProtocolSwitch r.status)) ∧
    (r.status ≠ switchingProtocols →
      verify_upgrade_response r k ps = some (Error.ProtocolSwitch r.status)) ∧
    (r.status = switchingProtocols →
      headerIsCI r.upgradeHeader "websocket" = false →
      verify_upgrade_response r k ps = some Error.MissingUpgradeWebSocketHeader) ∧
    (r.status = switchingProtocols →
      headerIsCI r.upgradeHeader "websocket" = true →
      headerContainsCI r.connectionHeader "upgrade" = false →
      verify_upgrade_response r k ps = some Error.MissingConnectionUpgradeHeader) ∧
    (r.status = switchingProtocols →
      headerIsCI r.upgradeHeader "websocket" = true →
      headerContainsCI r.connectionHeader "upgrade" = true →
      r.acceptHeader ≠ some k →
      verify_upgrade_response r k ps = some Error.SecWebSocketAcceptKeyMismatch) ∧
    (r.status = switchingProtocols →
      headerIsCI r.upgradeHeader "websocket" = true →
      headerContainsCI r.connectionHeader "upgrade" = true →
      r.acceptHeader = some k →
      subprotocolOk ps r.protocolHeader = false →
      verify_upgrade_response r k ps = some Error.SecWebSocketProtocolMismatch) ∧
    (r.status = switchingProtocols →
      headerIsCI r.upgradeHeader "websocket" = true →
      headerContainsCI r.connectionHeader "upgrade" = true →
      r.acceptHeader = some k →
      subprotocolOk ps r.protocolHeader = true →
      verify_upgrade_response r k ps = none) := by
  refine ⟨fun h1 _ => ?_, fun h1 => ?_, fun h1 h2 => ?_, fun h1 h2 h3 => ?_,
    fun h1 h2 h3 h4 => ?_, fun h1 h2 h3 h4 h5 => ?_, fun h1 h2 h3 h4 h5 => ?_⟩ <;>
    simp [verify_upgrade_response, h1, *]

/-- Witness for claim C3, at a response with status 500 and no headers at
all: the reported failure is `ProtocolSwitch 500`, not the missing
`Upgrade`-header variant. -/
theorem upgrade_checks_ordered_witness :
    verify_upgrade_response ⟨500, none, none, none, none⟩ "key" [] =
      some (Error.ProtocolSwitch 500) :=
  (upgrade_checks_ordered ⟨500, none, none, none, none⟩ "key" []).1
    (by decide) rfl

end Kube
